import Mathlib

/-!
# Verification of the kubectl-kaito chat / endpoint-discovery core

Shallow embedding of the interactive-chat and endpoint-discovery subsystem of
the `kubectl-kaito` CLI (files `pkg/chat.go` and `pkg/get_endpoint.go`),
together with proofs settling the frozen claims about it.

Modelling conventions:
* Go `string` is Lean `String`; Go `float64` values that only flow through
  comparisons and assignments are modelled as `ℚ`; Go `int` is `Int`.
* Kubernetes unstructured objects (`map[string]interface{}` obtained from
  JSON) are modelled by the inductive `Jval`; a `map[string]interface{}` is an
  association list `List (String × Jval)` (first binding wins, standing for
  the parsed map).
* External effects (Kubernetes API reads, DNS lookups, HTTP probes and posts)
  are modelled by explicit oracles in a `ClusterEnv` record, and the sequence
  of network operations a command performs is recorded as a `List NetEv`
  trace.
-/

/-- Untyped JSON-ish value, modelling Go `interface{}` after
`encoding/json.Unmarshal` / `unstructured.Unstructured` contents. -/
inductive Jval where
  | str (s : String)
  | num (n : Int)
  | boolean (b : Bool)
  | null
  | arr (elems : List Jval)
  | obj (fields : List (String × Jval))

/-- Lookup in a Go map modelled as an association list
(`m[key]` with `exists` flag becoming `Option`). -/
def jlookup : List (String × Jval) → String → Option Jval
  | [], _ => none
  | (k, v) :: rest, key => if k = key then some v else jlookup rest key

/-- Test listStarts p s: whether the char list `p` is an initial segment of
`s`; helper for modelling Go `strings.TrimPrefix`-style operations. -/
def listStarts : List Char → List Char → Bool
  | [], _ => true
  | _ :: _, [] => false
  | p :: ps, c :: cs => p == c && listStarts ps cs

/-- Go `strings.TrimPrefix s pre`: drop `pre` from the front of `s` when it
is an initial segment, otherwise return `s` unchanged. -/
def goTrimPre (s pre : String) : String :=
  if listStarts pre.data s.data then String.mk (s.data.drop pre.data.length) else s

/-- One network operation performed by a command; traces of these record
which external accesses happen and in which order. -/
inductive NetEv where
  | workspaceFetch
  | readinessCheck
  | serviceFetch
  | dnsLookup (host : String)
  | portProbe (port : String)
  | httpPost
deriving DecidableEq

/-- The fields of a core-API `Service` object consumed by this core:
`spec.clusterIP`, `spec.type` and `status.loadBalancer.ingress[]`. -/
structure IngressEntry where
  ip : String
  hostname : String
deriving DecidableEq

structure Svc where
  clusterIP : String
  svcType : String
  ingress : List IngressEntry
deriving DecidableEq

/-- The cluster-side world a command runs against: the workspace custom
resource (as an unstructured object map), the Service named like the
workspace, a DNS-lookup oracle (`net.LookupHost` succeeding on the given
argument), and an HTTP HEAD-probe oracle (`none` = transport error,
`some code` = response with that status code). -/
structure ClusterEnv where
  workspace : Option (List (String × Jval))
  service : Option Svc
  dns : String → Bool
  probe : String → Option Nat

/-! ## pkg/chat.go — endpoint resolution (chat flow) -/

/-- From `chat.go` line 189: the canonical cluster-DNS base endpoint
`fmt.Sprintf("http://%s.%s.svc.cluster.local:80", name, namespace)`. -/
def clusterEndpoint (name ns : String) : String :=
  "http://" ++ name ++ "." ++ ns ++ ".svc.cluster.local:80"

/-- From `chat.go` `canAccessClusterEndpoint` (line 213): the argument passed to
`net.LookupHost`, namely
`strings.TrimPrefix(strings.TrimPrefix(endpoint, "http://"), "https://")`. -/
def lookupHostArg (endpoint : String) : String :=
  goTrimPre (goTrimPre endpoint "http://") "https://"

/-- From `chat.go` `checkLocalPortForward` (line 219): the hardcoded probe list
`[]string{"8080", "8000", "3000", "5000"}`, in source order. -/
def commonPorts : List String := ["8080", "8000", "3000", "5000"]

/-- From `chat.go` `testEndpoint` (lines 232-244): HEAD-probe an endpoint; a
transport error is failure, a response counts as success iff its status
code is `< 500`. -/
def testEndpoint (probe : String → Option Nat) (endpoint : String) : Bool :=
  match probe endpoint with
  | none => false
  | some code => code < 500

/-- The 2-second client timeout used by `testEndpoint`
(`http.Client{Timeout: 2 * time.Second}`). -/
def testEndpointTimeoutSeconds : Nat := 2

/-- The `chat.go` `checkLocalPortForward` loop over `commonPorts`: returns the
first `http://localhost:<port>` whose probe succeeds, else the empty string;
also records the probes performed, in order. -/
def checkLocalPortForwardAux (probe : String → Option Nat) :
    List String → String × List NetEv
  | [] => ("", [])
  | p :: rest =>
    let endpoint := "http://localhost:" ++ p
    if testEndpoint probe endpoint then (endpoint, [.portProbe p])
    else
      let r := checkLocalPortForwardAux probe rest
      (r.1, .portProbe p :: r.2)

def checkLocalPortForward (probe : String → Option Nat) : String × List NetEv :=
  checkLocalPortForwardAux probe commonPorts

/-- The remediation error of `chat.go` line 200, returned when neither the
cluster-internal endpoint nor any local port-forward is reachable. -/
def portForwardErrMsg (name : String) : String :=
  "workspace endpoint is not accessible.\n\nTo chat with this workspace, first set up " ++
  "port-forward" ++
  ("ing:\n  kubectl port-forward svc/" ++ name ++
   " 8080:80\n\nThen try the chat command again (it will automatically detect the local endpoint)")

/-- From `chat.go` `getInferenceEndpoint` (lines 172-208): fetch the Service,
reject empty/headless ClusterIP, try the cluster-DNS lookup, then the local
port-forward probes, and append `/v1/chat/completions` on success.
Paired with the trace of network operations performed. -/
def getInferenceEndpoint (name ns : String) (env : ClusterEnv) :
    Except String String × List NetEv :=
  match env.service with
  | none => (.error ("failed to get service for workspace " ++ name), [.serviceFetch])
  | some svc =>
    if svc.clusterIP = "" ∨ svc.clusterIP = "None" then
      (.error ("service " ++ name ++ " has no cluster IP"), [.serviceFetch])
    else
      let ce := clusterEndpoint name ns
      let arg := lookupHostArg ce
      if env.dns arg then
        (.ok (ce ++ "/v1/chat/completions"), [.serviceFetch, .dnsLookup arg])
      else
        let r := checkLocalPortForward env.probe
        if r.1 = "" then
          (.error (portForwardErrMsg name), .serviceFetch :: .dnsLookup arg :: r.2)
        else
          (.ok (r.1 ++ "/v1/chat/completions"), .serviceFetch :: .dnsLookup arg :: r.2)

/-! ## pkg/chat.go — model-name display helpers -/

/-- From `chat.go` `convertToString` (lines 348-365): safe conversion of an
untyped value to a string. Strings are returned as-is; `nil` renders as
`"<nil>"` and is rejected to `""`; numbers and booleans render via Go `%v`
formatting (modelled with their decimal / `true`/`false` forms); composite
values render to some non-empty `%v` text (modelled abstractly, immaterial
to every claim). -/
def convertToString : Jval → String
  | .str s => s
  | .num n => toString n
  | .boolean b => if b then "true" else "false"
  | .null => ""
  | .arr _ => "[]"
  | .obj _ => "map[]"

/-- From `chat.go` `extractStringFromPath` (lines 319-345): walk nested maps
along `path`; a missing key or a non-map intermediate yields `""`, the final
value is converted with `convertToString`. -/
def extractStringFromPath : List (String × Jval) → List String → String
  | _, [] => ""
  | fields, key :: rest =>
    match jlookup fields key with
    | none => ""
    | some v =>
      match rest with
      | [] => convertToString v
      | _ :: _ =>
        match v with
        | .obj sub => extractStringFromPath sub rest
        | _ => ""

/-- From `chat.go` `getModelName` (lines 246-268): try the three alternate
paths in order, first non-empty wins, else `"Unknown"`. -/
def extractModelName (ws : List (String × Jval)) : String :=
  let p1 := extractStringFromPath ws ["spec", "inference", "preset", "name"]
  if p1 ≠ "" then p1
  else
    let p2 := extractStringFromPath ws ["inference", "preset", "name"]
    if p2 ≠ "" then p2
    else
      let p3 := extractStringFromPath ws ["inference", "model"]
      if p3 ≠ "" then p3 else "Unknown"

/-- From `chat.go` `run` (lines 161-166): fetch the workspace for display
purposes; any failure degrades to the name `"Unknown"` (the fetch is still
performed). -/
def getModelName (env : ClusterEnv) : String × List NetEv :=
  match env.workspace with
  | none => ("Unknown", [.workspaceFetch])
  | some ws => (extractModelName ws, [.workspaceFetch])

/-! ## pkg/chat.go — InferenceClient (`sendMessage`, lines 513-587)

The HTTP exchange is abstracted to its observable pieces: the response
status code, the response body as raw text (read errors are out of scope —
the body was read), and the result of `json.Unmarshal` of that body into
`map[string]interface{}` (`none` = not valid JSON, `some j` = the parsed
value; unmarshalling into a map additionally requires `j` to be an
object). -/

/-- The nested guarded extraction of `choices[0].message.content`
(`chat.go` lines 575-583), including the `strings.TrimSpace`. -/
def extractContent (fields : List (String × Jval)) : Option String :=
  match jlookup fields "choices" with
  | some (.arr (first :: _)) =>
    match first with
    | .obj choiceFields =>
      match jlookup choiceFields "message" with
      | some (.obj msgFields) =>
        match jlookup msgFields "content" with
        | some (.str content) => some content.trim
        | _ => none
      | _ => none
    | _ => none
  | _ => none

/-- From `chat.go` `sendMessage` response handling (lines 555-587): non-200
status yields the error embedding status and body verbatim; a 200 body that
does not unmarshal into a map yields the parse error (the Go message also
embeds the `json` error detail, abstracted here); a 200 object body without
the expected shape yields `"unexpected response format"`; otherwise the
trimmed content is returned. -/
def sendMessage (status : Nat) (bodyText : String) (parsed : Option Jval) :
    Except String String :=
  if status ≠ 200 then
    .error ("API request failed with status " ++ toString status ++ ": " ++ bodyText)
  else
    match parsed with
    | some (.obj fields) =>
      match extractContent fields with
      | some s => .ok s
      | none => .error "unexpected response format"
    | _ => .error "failed to parse response"

/-! ## pkg/chat.go — InteractiveSession state -/

/-- The session's generation parameters (`ChatOptions.Temperature`,
`MaxTokens`, `TopP`). -/
structure GenParams where
  temperature : ℚ
  maxTokens : Int
  topP : ℚ
deriving DecidableEq

/-- The flag defaults of `NewChatCmd` (lines 57-62): 0.7 / 1024 / 0.9. -/
def defaultGenParams : GenParams := ⟨7/10, 1024, 9/10⟩

/-- The range invariant on `GenParams` stated by the spec's data model. -/
def GenParams.inRange (p : GenParams) : Prop :=
  0 ≤ p.temperature ∧ p.temperature ≤ 2 ∧ 0 < p.maxTokens ∧ 0 ≤ p.topP ∧ p.topP ≤ 1

instance (p : GenParams) : Decidable p.inRange := by
  unfold GenParams.inRange; infer_instance

/-- From `chat.go` `setParameter` (lines 474-511). `parseFloat` models
`strconv.ParseFloat(value, 64)` and `parseInt` models
`strconv.Atoi(value)` (`none` = parse error). Returns the new parameters
and the message printed. -/
def setParameter (parseFloat : String → Option ℚ) (parseInt : String → Option Int)
    (p : GenParams) (param value : String) : GenParams × String :=
  match param with
  | "temperature" =>
    match parseFloat value with
    | some t =>
      if 0 ≤ t ∧ t ≤ 2 then ({ p with temperature := t }, "Temperature set to " ++ toString t)
      else (p, "Invalid temperature value. Must be between 0.0 and 2.0")
    | none => (p, "Invalid temperature value. Must be between 0.0 and 2.0")
  | "max_tokens" =>
    match parseInt value with
    | some tokens =>
      if 0 < tokens then ({ p with maxTokens := tokens }, "Max tokens set to " ++ toString tokens)
      else (p, "Invalid max_tokens value. Must be a positive integer")
    | none => (p, "Invalid max_tokens value. Must be a positive integer")
  | "top_p" =>
    match parseFloat value with
    | some topP =>
      if 0 ≤ topP ∧ topP ≤ 1 then ({ p with topP := topP }, "Top-p set to " ++ toString topP)
      else (p, "Invalid top_p value. Must be between 0.0 and 1.0")
    | none => (p, "Invalid top_p value. Must be between 0.0 and 1.0")
  | _ => (p, "Unknown parameter: " ++ param)

/-- From `chat.go` `handleCommand` (lines 414-472), restricted to its effect on
the session state: which commands terminate the session (`true` = exit) and
how the generation parameters change. Only `/set` with at least two
arguments mutates them; `/quit` and `/exit` terminate. -/
def handleCommand (parseFloat : String → Option ℚ) (parseInt : String → Option Int)
    (p : GenParams) (parts : List String) : GenParams × Bool :=
  match parts with
  | [] => (p, false)
  | cmd :: rest =>
    if cmd = "/quit" ∨ cmd = "/exit" then (p, true)
    else if cmd = "/set" then
      match rest with
      | param :: value :: _ => ((setParameter parseFloat parseInt p param value).1, false)
      | _ => (p, false)
    else (p, false)

/-- Outcome of one blocking read in `startInteractiveSession`
(lines 376-385): `scanOk` is the value of `scanner.Scan()`, `scanErr` the
value of `scanner.Err()` (`none` at end-of-file). On `Scan() = false` the
code returns `nil` after printing `"\nChat session ended."` when
`scanner.Err() != nil`, and otherwise returns the wrapped error
`"error reading input: ..."`. -/
inductive ReadStep where
  | gotLine (line : String)
  | gracefulClose (printed : String)
  | errorExit (msg : String)
deriving DecidableEq

def sessionReadStep (scanOk : Bool) (line : String) (scanErr : Option String) : ReadStep :=
  if scanOk then .gotLine line
  else
    match scanErr with
    | some _ => .gracefulClose "\nChat session ended."
    | none => .errorExit "error reading input: %!w(<nil>)"

/-! ## pkg/chat.go — command validation and run -/

/-- The chat command's flag values (`ChatOptions`). -/
structure ChatOpts where
  workspaceName : String
  ns : String
  systemPrompt : String
  temperature : ℚ
  maxTokens : Int
  topP : ℚ

/-- From `chat.go` `validate` (lines 105-123). -/
def ChatOpts.validate (o : ChatOpts) : Except String Unit :=
  if o.workspaceName = "" then .error "workspace name is required"
  else if o.temperature < 0 ∨ 2 < o.temperature then
    .error "temperature must be between 0.0 and 2.0"
  else if o.topP < 0 ∨ 1 < o.topP then .error "top-p must be between 0.0 and 1.0"
  else if o.maxTokens ≤ 0 then .error "max-tokens must be greater than 0"
  else .ok ()

/-- Namespace defaulting of `chat.go` / `get_endpoint.go` `run`: an empty
`--namespace` falls back to the kubeconfig namespace or `"default"`
(the kubeconfig read is local, not a network access; modelled as absent). -/
def resolveNamespace (ns : String) : String :=
  if ns = "" then "default" else ns

/-- Result of the chat command up to the start of the interactive loop. -/
inductive ChatOutcome where
  | sessionStarted (endpoint modelName : String)
  | err (msg : String)
deriving DecidableEq

/-- From `chat.go` `run` (lines 125-170): resolve the namespace, resolve the
inference endpoint, fetch the workspace for the display name (failure
tolerated), then start the interactive session. Paired with the network
trace. -/
def chatRun (o : ChatOpts) (env : ClusterEnv) : ChatOutcome × List NetEv :=
  let ns := resolveNamespace o.ns
  match getInferenceEndpoint o.workspaceName ns env with
  | (.error e, evs) => (.err e, evs)
  | (.ok endpoint, evs) =>
    let m := getModelName env
    (.sessionStarted endpoint m.1, evs ++ m.2)

/-- The chat command's `RunE` (lines 82-88): validation runs first and a
validation failure returns before `run` — hence before any network
access (empty trace). -/
def chatRunE (o : ChatOpts) (env : ClusterEnv) : ChatOutcome × List NetEv :=
  match o.validate with
  | .error e => (.err ("validation failed: " ++ e), [])
  | .ok _ => chatRun o env

/-! ## pkg/get_endpoint.go — ReadinessGate -/

/-- The inner test of the condition-scanning loop of `isWorkspaceReady`
(`get_endpoint.go` lines 224-239): the entry must be a map whose `"type"`
is the string `"WorkspaceReady"` and whose `"status"` is the string
`"True"`; entries failing any type assertion are skipped. -/
def condEntryReady (c : Jval) : Bool :=
  match c with
  | .obj f =>
    match jlookup f "type" with
    | some (.str t) =>
      if t = "WorkspaceReady" then
        match jlookup f "status" with
        | some (.str s) => s = "True"
        | _ => false
      else false
    | _ => false
  | _ => false

/-- The `for` loop of `isWorkspaceReady`: scan the condition list, `true`
on the first ready entry. -/
def scanConditions : List Jval → Bool
  | [] => false
  | c :: rest => if condEntryReady c then true else scanConditions rest

/-- From `get_endpoint.go` `isWorkspaceReady` (lines 205-242): the status value
must be a map with a `"conditions"` list containing a
`WorkspaceReady=True` entry; every failed type assertion yields `false`. -/
def isWorkspaceReady (status : Jval) : Bool :=
  match status with
  | .obj f =>
    match jlookup f "conditions" with
    | some (.arr l) => scanConditions l
    | _ => false
  | _ => false

/-- The not-ready error of `get_endpoint.go` line 198. -/
def notReadyMsg (name : String) : String :=
  "workspace " ++ name ++
  (" is not ready yet. Use 'kubectl kaito status --workspace-name " ++ name ++
   "' to check status")

/-- From `get_endpoint.go` `checkWorkspaceReady` (lines 171-203), after the
workspace fetch: missing `status` is its own error; otherwise the
condition scan decides between success and the not-ready error. -/
def checkWorkspaceReady (name : String) (ws : List (String × Jval)) :
    Except String Unit :=
  match jlookup ws "status" with
  | none => .error ("workspace " ++ name ++ " has no status information")
  | some st =>
    if isWorkspaceReady st then .ok () else .error (notReadyMsg name)

/-! ## pkg/get_endpoint.go — standalone endpoint lookup -/

/-- The ingress scan of `getServiceEndpoint` (lines 257-268): first entry
exposing an `IP`, else a `Hostname`, wins; fully empty entries are
skipped. -/
def findExternalEndpoint : List IngressEntry → Option String
  | [] => none
  | e :: rest =>
    if e.ip ≠ "" then some ("http://" ++ e.ip ++ ":80")
    else if e.hostname ≠ "" then some ("http://" ++ e.hostname ++ ":80")
    else findExternalEndpoint rest

/-- From `get_endpoint.go` `getServiceEndpoint` (lines 244-281): with
`--external` and a LoadBalancer Service, a populated ingress entry is
returned first; otherwise a non-empty, non-`"None"` ClusterIP yields the
cluster-DNS URL, else the no-cluster-IP error. -/
def getServiceEndpoint (name ns : String) (external : Bool) (service : Option Svc) :
    Except String String :=
  match service with
  | none => .error ("failed to get service for workspace " ++ name)
  | some svc =>
    match
      (if external ∧ svc.svcType = "LoadBalancer" then findExternalEndpoint svc.ingress
       else none) with
    | some endpoint => .ok endpoint
    | none =>
      if svc.clusterIP ≠ "" ∧ svc.clusterIP ≠ "None" then .ok (clusterEndpoint name ns)
      else .error ("service " ++ name ++ " has no cluster IP")

/-- The get-endpoint command's flag values (`GetEndpointOptions`). -/
structure GetEndpointOpts where
  workspaceName : String
  ns : String
  external : Bool
  format : String

/-- From `get_endpoint.go` `run` (lines 98-169), from the workspace fetch on:
`checkWorkspaceReady` runs first (workspace fetch + readiness check), and
only on success is `getServiceEndpoint` invoked. Paired with the network
trace. -/
def getEndpointRun (o : GetEndpointOpts) (env : ClusterEnv) :
    Except String String × List NetEv :=
  let ns := resolveNamespace o.ns
  match env.workspace with
  | none =>
    (.error ("failed to get workspace " ++ o.workspaceName), [.workspaceFetch])
  | some ws =>
    match checkWorkspaceReady o.workspaceName ws with
    | .error e => (.error e, [.workspaceFetch, .readinessCheck])
    | .ok _ =>
      match getServiceEndpoint o.workspaceName ns o.external env.service with
      | .error e =>
        (.error ("failed to get service endpoint: " ++ e),
         [.workspaceFetch, .readinessCheck, .serviceFetch])
      | .ok endpoint =>
        (.ok endpoint, [.workspaceFetch, .readinessCheck, .serviceFetch])

/-- Readiness gating of a network trace: among the events
`readinessCheck` and `serviceFetch`, a `readinessCheck` comes first (or
neither occurs). -/
def gateBefore : List NetEv → Bool
  | [] => true
  | .readinessCheck :: _ => true
  | .serviceFetch :: _ => false
  | _ :: rest => gateBefore rest

/-! ## Shared helper notions -/

/-- The probe loop returns exactly the endpoint of the first port in the
list whose probe succeeds, and the empty string when none does. -/
theorem checkLocalPortForwardAux_first (probe : String → Option Nat) (l : List String) :
    (checkLocalPortForwardAux probe l).1 =
      match l.find? (fun p => testEndpoint probe ("http://localhost:" ++ p)) with
      | some p => "http://localhost:" ++ p
      | none => "" := by
  induction l with
  | nil => rfl
  | cons p rest ih =>
    simp only [checkLocalPortForwardAux, List.find?]
    by_cases h : testEndpoint probe ("http://localhost:" ++ p)
    · simp [h]
    · simp only [h, if_neg, Bool.false_eq_true, ite_false]
      exact ih

/-- Occurrence of `pat` contiguously inside `s` (used to state that an error
message names the workspace or quotes a remediation command). -/
def containsSeg (pat s : String) : Prop := ∃ a b, s = a ++ pat ++ b

/-! ## C5 — tier-2 local port-forward probing -/

/-- C5: when the tier-1 DNS lookup fails, tier 2 probes
`http://localhost:{8080,8000,3000,5000}` in exactly that source order with
a 2-second timeout each, returning the first endpoint whose probe yields a
status `< 500` (any such response, a 404 included, counts); and when every
probe fails, the chat flow's resolution returns the error whose message
instructs the user to start a port-forward. -/
theorem c5_local_port_probing (probe : String → Option Nat) :
    commonPorts = ["8080", "8000", "3000", "5000"] ∧
    testEndpointTimeoutSeconds = 2 ∧
    (∀ endpoint code, probe endpoint = some code →
       (testEndpoint probe endpoint = true ↔ code < 500)) ∧
    (checkLocalPortForward probe).1 =
      (match commonPorts.find? (fun p => testEndpoint probe ("http://localhost:" ++ p)) with
       | some p => "http://localhost:" ++ p
       | none => "") ∧
    ((∀ p ∈ commonPorts, testEndpoint probe ("http://localhost:" ++ p) = false) →
      ∀ (name ns : String) (ws : Option (List (String × Jval))) (svc : Svc)
        (dns : String → Bool),
        ¬(svc.clusterIP = "" ∨ svc.clusterIP = "None") →
        dns (lookupHostArg (clusterEndpoint name ns)) = false →
        (getInferenceEndpoint name ns ⟨ws, some svc, dns, probe⟩).1 =
          .error (portForwardErrMsg name) ∧
        containsSeg "port-forward" (portForwardErrMsg name)) := by
  refine ⟨rfl, rfl, ?_, ?_, ?_⟩
  · intro endpoint code h
    simp [testEndpoint, h]
  · exact checkLocalPortForwardAux_first probe commonPorts
  · intro hall name ns ws svc dns hip hdns
    have hempty : (checkLocalPortForward probe).1 = "" := by
      rw [show checkLocalPortForward probe = checkLocalPortForwardAux probe commonPorts from rfl,
          checkLocalPortForwardAux_first probe commonPorts]
      have hnone :
          commonPorts.find? (fun p => testEndpoint probe ("http://localhost:" ++ p)) = none := by
        rw [List.find?_eq_none]
        intro p hp
        simp [hall p hp]
      rw [hnone]
    constructor
    · simp [getInferenceEndpoint, hip, hdns, hempty]
    · exact ⟨"workspace endpoint is not accessible.\n\nTo chat with this workspace, first set up ",
        "ing:\n  kubectl port-forward svc/" ++ name ++
          " 8080:80\n\nThen try the chat command again (it will automatically detect the local endpoint)",
        rfl⟩

/-- C5 (witness): with a probe answering 404 on port 8000 only, the loop
returns `http://localhost:8000`; with every probe answering 500, the chat
flow yields the port-forward remediation error for workspace `w`. -/
theorem c5_witness :
    (checkLocalPortForward
        (fun e => if e = "http://localhost:8000" then some 404 else none)).1 =
      "http://localhost:8000" ∧
    (getInferenceEndpoint "w" "default"
        ⟨none, some ⟨"10.0.0.1", "ClusterIP", []⟩, fun _ => false, fun _ => some 500⟩).1 =
      .error (portForwardErrMsg "w") ∧
    containsSeg "port-forward" (portForwardErrMsg "w") := by
  refine ⟨?_, ?_, ?_⟩
  · exact (c5_local_port_probing
      (fun e => if e = "http://localhost:8000" then some 404 else none)).2.2.2.1.trans
      (by decide)
  · exact ((c5_local_port_probing (fun _ => some 500)).2.2.2.2 (by decide) "w" "default"
      none ⟨"10.0.0.1", "ClusterIP", []⟩ (fun _ => false) (by decide) rfl).1
  · exact ((c5_local_port_probing (fun _ => some 500)).2.2.2.2 (by decide) "w" "default"
      none ⟨"10.0.0.1", "ClusterIP", []⟩ (fun _ => false) (by decide) rfl).2

/-! ## C6 / C10 — InferenceClient response handling -/

/-- The response shape named by the claim: `j` is a JSON object
`{"choices":[{"message":{"content": s}}, ...]}` whose first choice carries
the string `s` (stated from the claim's words, independently of the code's
guarded extraction). -/
def hasClaimShape (j : Jval) (s : String) : Prop :=
  ∃ fields choiceFields msgFields rest,
    j = .obj fields ∧
    jlookup fields "choices" = some (.arr (.obj choiceFields :: rest)) ∧
    jlookup choiceFields "message" = some (.obj msgFields) ∧
    jlookup msgFields "content" = some (.str s)

/-- The code's guarded extraction only succeeds on bodies of the claimed
shape, and then returns the trimmed content string. -/
theorem extractContent_some_shape (fields : List (String × Jval)) (s : String)
    (h : extractContent fields = some s) :
    ∃ t, hasClaimShape (.obj fields) t ∧ s = t.trim := by
  unfold extractContent at h
  split at h
  case h_2 => exact absurd h (by simp)
  case h_1 first tail hc =>
    split at h
    case h_2 => exact absurd h (by simp)
    case h_1 choiceFields =>
      split at h
      case h_2 => exact absurd h (by simp)
      case h_1 msgFields hm =>
        split at h
        case h_2 => exact absurd h (by simp)
        case h_1 content hcont =>
          refine ⟨content, ⟨fields, choiceFields, msgFields, tail, rfl, hc, hm, hcont⟩, ?_⟩
          exact (Option.some.inj h).symm

/-- C6: for every response handed to `sendMessage`: a non-200 status
yields the error embedding the status code and the body verbatim;
a 200 response whose body is JSON of the claimed
`choices[0].message.content` shape yields the content with surrounding
whitespace trimmed; a 200 JSON-object body of any other shape yields the
`"unexpected response format"` error; and a 200 body that is valid JSON
but not an object yields the parse error (both of the latter are
malformed-success-body errors; no reply is ever produced for them). -/
theorem c6_sendMessage_response_handling (status : Nat) (bodyText : String)
    (parsed : Option Jval) :
    (status ≠ 200 → sendMessage status bodyText parsed =
       .error ("API request failed with status " ++ toString status ++ ": " ++ bodyText)) ∧
    (∀ j s, status = 200 → parsed = some j → hasClaimShape j s →
       sendMessage status bodyText parsed = .ok s.trim) ∧
    (∀ fields, status = 200 → parsed = some (.obj fields) →
       (∀ s, ¬ hasClaimShape (.obj fields) s) →
       sendMessage status bodyText parsed = .error "unexpected response format") ∧
    (∀ j, status = 200 → parsed = some j → (∀ fields, j ≠ .obj fields) →
       sendMessage status bodyText parsed = .error "failed to parse response") := by
  refine ⟨?_, ?_, ?_, ?_⟩
  · intro h
    simp [sendMessage, h]
  · intro j s h200 hp hshape
    subst h200 hp
    obtain ⟨fields, choiceFields, msgFields, rest, hj, hc, hm, hcont⟩ := hshape
    subst hj
    simp [sendMessage, extractContent, hc, hm, hcont]
  · intro fields h200 hp hnone
    subst h200 hp
    cases hext : extractContent fields with
    | some t =>
      obtain ⟨u, hu, _⟩ := extractContent_some_shape fields t hext
      exact absurd hu (hnone u)
    | none => simp [sendMessage, hext]
  · intro j h200 hp hnotobj
    subst h200 hp
    cases j with
    | obj fields => exact absurd rfl (hnotobj fields)
    | str s => simp [sendMessage]
    | num n => simp [sendMessage]
    | boolean b => simp [sendMessage]
    | null => simp [sendMessage]
    | arr l => simp [sendMessage]

/-- C6 (witness): a 500 response with body `boom` produces the embedding
error; a 200 response with the claimed shape produces the trimmed
content. -/
theorem c6_witness :
    sendMessage 500 "boom" none =
      .error ("API request failed with status " ++ toString 500 ++ ": " ++ "boom") ∧
    sendMessage 200 ""
        (some (.obj [("choices",
          .arr [.obj [("message", .obj [("content", .str "  hi  ")])]])])) =
      .ok ("  hi  ".trim) := by
  constructor
  · exact (c6_sendMessage_response_handling 500 "boom" none).1 (by decide)
  · exact (c6_sendMessage_response_handling 200 ""
      (some (.obj [("choices",
        .arr [.obj [("message", .obj [("content", .str "  hi  ")])]])]))).2.1
      _ "  hi  " rfl rfl ⟨_, _, _, _, rfl, rfl, rfl, rfl⟩

/-- The property named by C10 for the first element of `choices`: it is an
object whose `message` is an object whose `content` is a string. -/
def firstChoiceContent (c : Jval) : Prop :=
  ∃ cf mf s, c = .obj cf ∧ jlookup cf "message" = some (.obj mf) ∧
    jlookup mf "content" = some (.str s)

/-- C10: the extraction of a reply from a 200-status JSON object body is
total over malformed shapes — whenever `choices` is missing, not an array,
an empty array, or its first element lacks the nested
`message.content` string, `sendMessage` returns the generic format error
(never a reply and never an out-of-bounds access, each cast being
guarded). -/
theorem c10_extraction_total (bodyText : String) (fields : List (String × Jval)) :
    (jlookup fields "choices" = none →
       sendMessage 200 bodyText (some (.obj fields)) =
         .error "unexpected response format") ∧
    (∀ v, jlookup fields "choices" = some v → (∀ l, v ≠ .arr l) →
       sendMessage 200 bodyText (some (.obj fields)) =
         .error "unexpected response format") ∧
    (jlookup fields "choices" = some (.arr []) →
       sendMessage 200 bodyText (some (.obj fields)) =
         .error "unexpected response format") ∧
    (∀ c rest, jlookup fields "choices" = some (.arr (c :: rest)) →
       ¬ firstChoiceContent c →
       sendMessage 200 bodyText (some (.obj fields)) =
         .error "unexpected response format") := by
  have hbase : ∀ h : extractContent fields = none,
      sendMessage 200 bodyText (some (.obj fields)) =
        .error "unexpected response format" := by
    intro h
    simp [sendMessage, h]
  refine ⟨?_, ?_, ?_, ?_⟩
  · intro h
    exact hbase (by simp [extractContent, h])
  · intro v hv hnotarr
    refine hbase ?_
    simp only [extractContent, hv]
    cases v with
    | arr l => exact absurd rfl (hnotarr l)
    | str s => rfl
    | num n => rfl
    | boolean b => rfl
    | null => rfl
    | obj f => rfl
  · intro h
    exact hbase (by simp [extractContent, h])
  · intro c rest hv hnc
    refine hbase ?_
    simp only [extractContent, hv]
    cases c with
    | obj cf =>
      cases hm : jlookup cf "message" with
      | none => simp [hm]
      | some m =>
        cases m with
        | obj mf =>
          cases hcont : jlookup mf "content" with
          | none => simp [hm, hcont]
          | some cv =>
            cases cv with
            | str s => exact absurd ⟨cf, mf, s, rfl, hm, hcont⟩ hnc
            | num n => simp [hm, hcont]
            | boolean b => simp [hm, hcont]
            | null => simp [hm, hcont]
            | arr l => simp [hm, hcont]
            | obj f => simp [hm, hcont]
        | str s => simp [hm]
        | num n => simp [hm]
        | boolean b => simp [hm]
        | null => simp [hm]
        | arr l => simp [hm]
    | str s => rfl
    | num n => rfl
    | boolean b => rfl
    | null => rfl
    | arr l => rfl

/-- C10 (witness): a 200 JSON-object body without a `choices` key gets the
generic format error. -/
theorem c10_witness :
    sendMessage 200 "irrelevant" (some (.obj [])) = .error "unexpected response format" :=
  (c10_extraction_total "irrelevant" []).1 rfl

/-! ## C7 — /set parameter mutation and the range invariant -/

/-- C7: `/set` updates exactly the requested field to exactly the parsed
value when it lies in its range (temperature in [0,2], max_tokens > 0,
top_p in [0,1]); any out-of-range or unparseable value, and any unknown
parameter, leaves all fields unchanged and prints the specific error
message; consequently the range invariant on the generation parameters is
preserved by `/set` and by every command dispatch of the session. -/
theorem c7_set_parameter (parseFloat : String → Option ℚ) (parseInt : String → Option Int)
    (p : GenParams) (param value : String) :
    (∀ t, param = "temperature" → parseFloat value = some t → 0 ≤ t → t ≤ 2 →
       (setParameter parseFloat parseInt p param value).1 = { p with temperature := t }) ∧
    (∀ n, param = "max_tokens" → parseInt value = some n → 0 < n →
       (setParameter parseFloat parseInt p param value).1 = { p with maxTokens := n }) ∧
    (∀ t, param = "top_p" → parseFloat value = some t → 0 ≤ t → t ≤ 1 →
       (setParameter parseFloat parseInt p param value).1 = { p with topP := t }) ∧
    (param = "temperature" → (∀ t, parseFloat value = some t → t < 0 ∨ 2 < t) →
       setParameter parseFloat parseInt p param value =
         (p, "Invalid temperature value. Must be between 0.0 and 2.0")) ∧
    (param = "max_tokens" → (∀ n, parseInt value = some n → n ≤ 0) →
       setParameter parseFloat parseInt p param value =
         (p, "Invalid max_tokens value. Must be a positive integer")) ∧
    (param = "top_p" → (∀ t, parseFloat value = some t → t < 0 ∨ 1 < t) →
       setParameter parseFloat parseInt p param value =
         (p, "Invalid top_p value. Must be between 0.0 and 1.0")) ∧
    (param ≠ "temperature" → param ≠ "max_tokens" → param ≠ "top_p" →
       setParameter parseFloat parseInt p param value =
         (p, "Unknown parameter: " ++ param)) ∧
    (p.inRange → (setParameter parseFloat parseInt p param value).1.inRange) ∧
    (∀ parts, p.inRange → (handleCommand parseFloat parseInt p parts).1.inRange) := by
  have hset : ∀ pr vl, p.inRange → (setParameter parseFloat parseInt p pr vl).1.inRange := by
    intro pr vl hp
    unfold setParameter
    split
    · cases hpf : parseFloat vl with
      | none => exact hp
      | some t =>
        by_cases hr : 0 ≤ t ∧ t ≤ 2
        · simp only [if_pos hr]
          exact ⟨hr.1, hr.2, hp.2.2.1, hp.2.2.2.1, hp.2.2.2.2⟩
        · simp only [if_neg hr]
          exact hp
    · cases hpi : parseInt vl with
      | none => exact hp
      | some n =>
        by_cases hr : 0 < n
        · simp only [if_pos hr]
          exact ⟨hp.1, hp.2.1, hr, hp.2.2.2.1, hp.2.2.2.2⟩
        · simp only [if_neg hr]
          exact hp
    · cases hpf : parseFloat vl with
      | none => exact hp
      | some t =>
        by_cases hr : 0 ≤ t ∧ t ≤ 1
        · simp only [if_pos hr]
          exact ⟨hp.1, hp.2.1, hp.2.2.1, hr.1, hr.2⟩
        · simp only [if_neg hr]
          exact hp
    · exact hp
  refine ⟨?_, ?_, ?_, ?_, ?_, ?_, ?_, hset param value, ?_⟩
  · intro t hparam hv h0 h2
    subst hparam
    simp [setParameter, hv, h0, h2]
  · intro n hparam hv hpos
    subst hparam
    simp [setParameter, hv, hpos]
  · intro t hparam hv h0 h1
    subst hparam
    simp [setParameter, hv, h0, h1]
  · intro hparam hrange
    subst hparam
    cases hv : parseFloat value with
    | none => simp [setParameter, hv]
    | some t =>
      have hneg : ¬(0 ≤ t ∧ t ≤ 2) := by
        rcases hrange t hv with h | h
        · exact fun hc => absurd h (not_lt.mpr hc.1)
        · exact fun hc => absurd h (not_lt.mpr hc.2)
      simp [setParameter, hv, hneg]
  · intro hparam hrange
    subst hparam
    cases hv : parseInt value with
    | none => simp [setParameter, hv]
    | some n =>
      have hneg : ¬(0 < n) := not_lt.mpr (hrange n hv)
      simp [setParameter, hv, hneg]
  · intro hparam hrange
    subst hparam
    cases hv : parseFloat value with
    | none => simp [setParameter, hv]
    | some t =>
      have hneg : ¬(0 ≤ t ∧ t ≤ 1) := by
        rcases hrange t hv with h | h
        · exact fun hc => absurd h (not_lt.mpr hc.1)
        · exact fun hc => absurd h (not_lt.mpr hc.2)
      simp [setParameter, hv, hneg]
  · intro h1 h2 h3
    simp [setParameter, h1, h2, h3]
  · intro parts hp
    unfold handleCommand
    cases parts with
    | nil => exact hp
    | cons cmd rest =>
      by_cases hq : cmd = "/quit" ∨ cmd = "/exit"
      · simp only [if_pos hq]
        exact hp
      · simp only [if_neg hq]
        by_cases hs : cmd = "/set"
        · simp only [if_pos hs]
          cases rest with
          | nil => exact hp
          | cons a tail =>
            cases tail with
            | nil => exact hp
            | cons b tail2 => exact hset a b hp
        · simp only [if_neg hs]
          exact hp

/-- C7 (witness): from in-range parameters ⟨1, 1024, 1⟩, a parsed
temperature 3/2 is stored exactly; a parsed temperature 5 is rejected with
the range-violation message and the state is untouched; the invariant is
preserved. -/
theorem c7_witness :
    (setParameter (fun _ => some (3/2 : ℚ)) (fun _ => none)
        ⟨1, 1024, 1⟩ "temperature" "1.5").1 =
      { GenParams.mk 1 1024 1 with temperature := (3/2 : ℚ) } ∧
    setParameter (fun _ => some (5 : ℚ)) (fun _ => none)
        ⟨1, 1024, 1⟩ "temperature" "5" =
      (⟨1, 1024, 1⟩, "Invalid temperature value. Must be between 0.0 and 2.0") ∧
    (setParameter (fun _ => some (3/2 : ℚ)) (fun _ => none)
        ⟨1, 1024, 1⟩ "temperature" "1.5").1.inRange := by
  refine ⟨?_, ?_, ?_⟩
  · exact (c7_set_parameter (fun _ => some (3/2 : ℚ)) (fun _ => none)
      ⟨1, 1024, 1⟩ "temperature" "1.5").1 (3/2) rfl rfl (by norm_num) (by norm_num)
  · exact (c7_set_parameter (fun _ => some (5 : ℚ)) (fun _ => none)
      ⟨1, 1024, 1⟩ "temperature" "5").2.2.2.1 rfl
      (fun t ht => by rw [← Option.some.inj ht]; right; norm_num)
  · exact (c7_set_parameter (fun _ => some (3/2 : ℚ)) (fun _ => none)
      ⟨1, 1024, 1⟩ "temperature" "1.5").2.2.2.2.2.2.2.1 (by decide)

/-! ## C8 — the readiness check -/

/-- The condition list of a workspace status value, per the claim's
reading of `status.conditions` (absent or ill-typed means no entries). -/
def condList (st : Jval) : List Jval :=
  match st with
  | .obj f =>
    match jlookup f "conditions" with
    | some (.arr l) => l
    | _ => []
  | _ => []

/-- The claim's notion of a ready condition entry: an object with
`type = "WorkspaceReady"` and `status = "True"`. -/
def readyEntry (c : Jval) : Prop :=
  ∃ f, c = .obj f ∧ jlookup f "type" = some (.str "WorkspaceReady") ∧
    jlookup f "status" = some (.str "True")

/-- The code's per-entry test agrees with the claim's notion. -/
theorem condEntryReady_iff (c : Jval) : condEntryReady c = true ↔ readyEntry c := by
  constructor
  · intro h
    unfold condEntryReady at h
    split at h
    case h_2 => exact absurd h (by simp)
    case h_1 f =>
      split at h
      case h_2 => exact absurd h (by simp)
      case h_1 t ht =>
        split at h
        next htw =>
          split at h
          case h_2 => exact absurd h (by simp)
          case h_1 s hs =>
            have hTrue : s = "True" := by simpa using h
            subst hTrue htw
            exact ⟨f, rfl, ht, hs⟩
        next => exact absurd h (by simp)
  · rintro ⟨f, rfl, ht, hs⟩
    simp [condEntryReady, ht, hs]

/-- The code's condition-scanning loop succeeds iff some entry is ready. -/
theorem scanConditions_true_iff (l : List Jval) :
    scanConditions l = true ↔ ∃ c ∈ l, readyEntry c := by
  induction l with
  | nil => simp [scanConditions]
  | cons c rest ih =>
    by_cases h : condEntryReady c = true
    · rw [show scanConditions (c :: rest) = true by simp [scanConditions, h]]
      constructor
      · intro _
        exact ⟨c, List.mem_cons_self c rest, (condEntryReady_iff c).mp h⟩
      · intro _
        rfl
    · have hfc : condEntryReady c = false := by
        cases hcc : condEntryReady c
        · rfl
        · exact absurd hcc h
      rw [show scanConditions (c :: rest) = scanConditions rest by
            simp [scanConditions, hfc], ih]
      constructor
      · rintro ⟨d, hd, hr⟩
        exact ⟨d, List.mem_cons_of_mem c hd, hr⟩
      · rintro ⟨d, hd, hr⟩
        rcases List.mem_cons.mp hd with rfl | hd'
        · exact absurd ((condEntryReady_iff d).mpr hr) h
        · exact ⟨d, hd', hr⟩

/-- The code's status-level test succeeds iff the condition list carries a
ready entry. -/
theorem isWorkspaceReady_true_iff (st : Jval) :
    isWorkspaceReady st = true ↔ ∃ c ∈ condList st, readyEntry c := by
  cases st with
  | obj f =>
    simp only [isWorkspaceReady, condList]
    cases hc : jlookup f "conditions" with
    | none => simp
    | some v =>
      cases v with
      | arr l => exact scanConditions_true_iff l
      | str s => simp
      | num n => simp
      | boolean b => simp
      | null => simp
      | obj g => simp
  | str s => simp [isWorkspaceReady, condList]
  | num n => simp [isWorkspaceReady, condList]
  | boolean b => simp [isWorkspaceReady, condList]
  | null => simp [isWorkspaceReady, condList]
  | arr l => simp [isWorkspaceReady, condList]

/-- C8: for every workspace object carrying a status value whose condition
list has no `WorkspaceReady`/`True` entry (the condition absent, ill-typed,
`"False"` or `"Unknown"` included), the readiness check returns the error
that names the workspace and quotes the status-inspection command
`kubectl kaito status`; when such an entry exists, the check succeeds. -/
theorem c8_readiness_check (name : String) (ws : List (String × Jval)) (st : Jval)
    (hst : jlookup ws "status" = some st) :
    ((∀ c ∈ condList st, ¬ readyEntry c) →
       checkWorkspaceReady name ws = .error (notReadyMsg name) ∧
       containsSeg name (notReadyMsg name) ∧
       containsSeg "kubectl kaito status" (notReadyMsg name)) ∧
    ((∃ c ∈ condList st, readyEntry c) → checkWorkspaceReady name ws = .ok ()) := by
  constructor
  · intro hno
    have hfalse : isWorkspaceReady st = false := by
      cases hW : isWorkspaceReady st
      · rfl
      · obtain ⟨c, hc, hr⟩ := (isWorkspaceReady_true_iff st).mp hW
        exact absurd hr (hno c hc)
    refine ⟨by simp [checkWorkspaceReady, hst, hfalse], ?_, ?_⟩
    · exact ⟨"workspace ",
        " is not ready yet. Use 'kubectl kaito status --workspace-name " ++ name ++
          "' to check status", rfl⟩
    · refine ⟨"workspace " ++ name ++ " is not ready yet. Use '",
        " --workspace-name " ++ name ++ "' to check status", ?_⟩
      have hlit :
          (" is not ready yet. Use 'kubectl kaito status --workspace-name " : String) =
            " is not ready yet. Use '" ++ ("kubectl kaito status" ++ " --workspace-name ") := by
        decide
      unfold notReadyMsg
      rw [hlit]
      simp only [String.append_assoc]
  · rintro ⟨c, hc, hr⟩
    have htrue : isWorkspaceReady st = true := (isWorkspaceReady_true_iff st).mpr ⟨c, hc, hr⟩
    simp [checkWorkspaceReady, hst, htrue]

/-- C8 (witness): a workspace whose status has an empty condition list is
rejected with the message naming it and quoting the inspection command. -/
theorem c8_witness :
    checkWorkspaceReady "w" [("status", .obj [("conditions", .arr [])])] =
      .error (notReadyMsg "w") ∧
    containsSeg "w" (notReadyMsg "w") ∧
    containsSeg "kubectl kaito status" (notReadyMsg "w") :=
  (c8_readiness_check "w" [("status", .obj [("conditions", .arr [])])]
    (.obj [("conditions", .arr [])]) (by simp [jlookup])).1
    (by simp [condList, jlookup])

/-! ## C9 — validation precedes all network access -/

/-- C9: whenever a chat flag value is out of range (temperature outside
[0,2], top-p outside [0,1], or max-tokens ≤ 0), the chat command fails
validation and returns before any network operation: the outcome is an
error and the network trace is empty. -/
theorem c9_validation_blocks_network (o : ChatOpts) (env : ClusterEnv)
    (h : o.temperature < 0 ∨ 2 < o.temperature ∨ o.topP < 0 ∨ 1 < o.topP ∨
      o.maxTokens ≤ 0) :
    (∃ msg, (chatRunE o env).1 = .err msg) ∧ (chatRunE o env).2 = [] := by
  have hval : ∃ e, o.validate = .error e := by
    unfold ChatOpts.validate
    by_cases h1 : o.workspaceName = ""
    · exact ⟨_, by rw [if_pos h1]⟩
    · rw [if_neg h1]
      by_cases h2 : o.temperature < 0 ∨ 2 < o.temperature
      · exact ⟨_, by rw [if_pos h2]⟩
      · rw [if_neg h2]
        by_cases h3 : o.topP < 0 ∨ 1 < o.topP
        · exact ⟨_, by rw [if_pos h3]⟩
        · rw [if_neg h3]
          by_cases h4 : o.maxTokens ≤ 0
          · exact ⟨_, by rw [if_pos h4]⟩
          · exfalso
            rcases h with h | h | h | h | h
            · exact h2 (Or.inl h)
            · exact h2 (Or.inr h)
            · exact h3 (Or.inl h)
            · exact h3 (Or.inr h)
            · exact h4 h
  obtain ⟨e, he⟩ := hval
  constructor
  · exact ⟨"validation failed: " ++ e, by simp [chatRunE, he]⟩
  · simp [chatRunE, he]

/-- C9 (witness): temperature 3 is rejected with an empty network trace. -/
theorem c9_witness :
    (∃ msg, (chatRunE ⟨"w", "", "", 3, 1024, 1⟩
        ⟨none, none, fun _ => false, fun _ => none⟩).1 = .err msg) ∧
    (chatRunE ⟨"w", "", "", 3, 1024, 1⟩
        ⟨none, none, fun _ => false, fun _ => none⟩).2 = [] :=
  c9_validation_blocks_network ⟨"w", "", "", 3, 1024, 1⟩
    ⟨none, none, fun _ => false, fun _ => none⟩ (Or.inr (Or.inl (by decide)))

/-! ## C1 — end-of-input handling of the interactive session -/

/-- C1: at end-of-file on standard input (`scanner.Scan()` returns `false`
with `scanner.Err() = nil`) the session does NOT close gracefully: the
code returns the wrapped error `"error reading input: ..."`, while the
graceful `"Chat session ended."` close is taken exactly when a read error
IS present — the two branches are inverted relative to the claim and the
spec. This theorem evaluates the embedded read-step at the failing input
(EOF) and at a genuine read error, exhibiting the inversion. -/
theorem c1_eof_branches_inverted :
    sessionReadStep false "" none = .errorExit "error reading input: %!w(<nil>)" ∧
    sessionReadStep false "" (some "read failure") =
      .gracefulClose "\nChat session ended." ∧
    ∀ msg, sessionReadStep false "" none ≠ .gracefulClose msg := by
  refine ⟨rfl, rfl, ?_⟩
  intro msg h
  simp [sessionReadStep] at h

/-! ## C4 — tier-1 DNS lookup argument -/

/-- C4: the chat flow's tier-1 check hands `net.LookupHost` the string
obtained from the endpoint URL by stripping only the `http://` and
`https://` schemes, so the `:80` port suffix is retained: for workspace
`my-llama` in namespace `default` the lookup argument is
`my-llama.default.svc.cluster.local:80`, not the canonical hostname
`my-llama.default.svc.cluster.local` the claim (and the surrounding
comment, `// Try to resolve the cluster DNS name`) describe. -/
theorem c4_lookup_arg_keeps_port :
    lookupHostArg (clusterEndpoint "my-llama" "default") =
      "my-llama.default.svc.cluster.local:80" ∧
    "my-llama.default.svc.cluster.local:80" ≠ "my-llama.default.svc.cluster.local" := by
  constructor
  · decide
  · decide

/-! ## C3 — empty / headless ClusterIP handling -/

/-- An ingress list yields no external endpoint iff every entry has both
fields empty. -/
theorem findExternalEndpoint_eq_none (l : List IngressEntry) :
    findExternalEndpoint l = none ↔ ∀ e ∈ l, e.ip = "" ∧ e.hostname = "" := by
  induction l with
  | nil => simp [findExternalEndpoint]
  | cons e rest ih =>
    simp only [findExternalEndpoint]
    by_cases hip : e.ip = ""
    · by_cases hhost : e.hostname = ""
      · simp [hip, hhost, ih]
      · simp [hip, hhost]
    · simp [hip]

/-- C3 (counterexample): a Service with empty `spec.clusterIP` but type
`LoadBalancer` and a populated ingress entry, queried with `--external`,
makes `getServiceEndpoint` return a URL — the external branch runs before
the ClusterIP check, so resolution does not "never return a URL" for
empty/headless ClusterIPs. -/
theorem c3_counterexample :
    (Svc.mk "" "LoadBalancer" [⟨"1.2.3.4", ""⟩]).clusterIP = "" ∧
    getServiceEndpoint "my-llama" "default" true (some ⟨"", "LoadBalancer", [⟨"1.2.3.4", ""⟩]⟩) =
      .ok "http://1.2.3.4:80" := by
  constructor
  · rfl
  · rfl

/-- C3 (amended): for every Service whose ClusterIP is `""` or `"None"`,
the chat flow's resolution always errors with the no-cluster-IP message,
and the standalone get-endpoint lookup errors likewise unless `--external`
is set, the Service type is `LoadBalancer`, and some ingress entry exposes
a non-empty IP or hostname (in which case the external URL is returned
without consulting the ClusterIP). -/
theorem c3_amended_headless_rejected (name ns : String) (external : Bool) (svc : Svc)
    (hip : svc.clusterIP = "" ∨ svc.clusterIP = "None")
    (hext : ¬(external = true ∧ svc.svcType = "LoadBalancer" ∧
              ∃ e ∈ svc.ingress, e.ip ≠ "" ∨ e.hostname ≠ "")) :
    (∀ env : ClusterEnv, env.service = some svc →
       (getInferenceEndpoint name ns env).1 =
         .error ("service " ++ name ++ " has no cluster IP")) ∧
    getServiceEndpoint name ns external (some svc) =
      .error ("service " ++ name ++ " has no cluster IP") := by
  constructor
  · intro env hsvc
    simp only [getInferenceEndpoint, hsvc]
    rcases hip with h | h <;> simp [h]
  · simp only [getServiceEndpoint]
    have hnone :
        (if external ∧ svc.svcType = "LoadBalancer" then findExternalEndpoint svc.ingress
         else none) = none := by
      by_cases hc : external ∧ svc.svcType = "LoadBalancer"
      · rw [if_pos hc]
        rw [findExternalEndpoint_eq_none]
        intro e he
        by_contra hbad
        exact hext ⟨hc.1, hc.2, e, he, by tauto⟩
      · rw [if_neg hc]
    rw [hnone]
    rcases hip with h | h <;> simp [h]

/-- C3 (witness): a headless (`"None"`) ClusterIP Service without external
access is rejected by both flows. -/
theorem c3_witness :
    (∀ env : ClusterEnv, env.service = some ⟨"None", "ClusterIP", []⟩ →
       (getInferenceEndpoint "w" "default" env).1 =
         .error ("service " ++ "w" ++ " has no cluster IP")) ∧
    getServiceEndpoint "w" "default" false (some ⟨"None", "ClusterIP", []⟩) =
      .error ("service " ++ "w" ++ " has no cluster IP") :=
  c3_amended_headless_rejected "w" "default" false ⟨"None", "ClusterIP", []⟩
    (Or.inr rfl) (by simp)

/-! ## C2 — readiness gating of endpoint resolution -/

/-- The local port-probe loop performs only `portProbe` events. -/
theorem checkLocalPortForwardAux_events (probe : String → Option Nat) (l : List String) :
    ∀ e ∈ (checkLocalPortForwardAux probe l).2, ∃ p, e = NetEv.portProbe p := by
  induction l with
  | nil => simp [checkLocalPortForwardAux]
  | cons p rest ih =>
    simp only [checkLocalPortForwardAux]
    by_cases h : testEndpoint probe ("http://localhost:" ++ p)
    · simp [h]
    · intro e he
      simp only [if_neg h, List.mem_cons] at he
      rcases he with rfl | he
      · exact ⟨p, rfl⟩
      · exact ih e he

/-- The chat command never performs a readiness check. -/
theorem readinessCheck_not_in_chatRun (o : ChatOpts) (env : ClusterEnv) :
    NetEv.readinessCheck ∉ (chatRunE o env).2 := by
  have hresolve : NetEv.readinessCheck ∉ (getInferenceEndpoint o.workspaceName
      (resolveNamespace o.ns) env).2 := by
    simp only [getInferenceEndpoint]
    match env.service with
    | none => simp
    | some svc =>
      by_cases hip : svc.clusterIP = "" ∨ svc.clusterIP = "None"
      · simp [hip]
      · simp only [if_pos hip, if_neg hip]
        by_cases hdns :
            env.dns (lookupHostArg (clusterEndpoint o.workspaceName (resolveNamespace o.ns)))
        · simp [hdns]
        · simp only [if_pos hdns, if_neg hdns]
          have hprobe := checkLocalPortForwardAux_events env.probe commonPorts
          by_cases hfound : (checkLocalPortForward env.probe).1 = ""
          · simp only [if_pos hfound, List.mem_cons]
            intro hmem
            rcases hmem with h | h | h
            · exact NetEv.noConfusion h
            · exact NetEv.noConfusion h
            · obtain ⟨p, hp⟩ := hprobe _ h
              exact NetEv.noConfusion hp
          · simp only [if_neg hfound, List.mem_cons]
            intro hmem
            rcases hmem with h | h | h
            · exact NetEv.noConfusion h
            · exact NetEv.noConfusion h
            · obtain ⟨p, hp⟩ := hprobe _ h
              exact NetEv.noConfusion hp
  simp only [chatRunE]
  match hv : o.validate with
  | .error e => simp
  | .ok _ =>
    simp only [chatRun]
    match hr : getInferenceEndpoint o.workspaceName (resolveNamespace o.ns) env with
    | (.error e, evs) =>
      rw [hr] at hresolve
      exact hresolve
    | (.ok endpoint, evs) =>
      rw [hr] at hresolve
      simp only [getModelName]
      match env.workspace with
      | none =>
        simp only [List.mem_append, List.mem_singleton]
        rintro (h | h)
        · exact hresolve h
        · exact NetEv.noConfusion h
      | some ws =>
        simp only [List.mem_append, List.mem_singleton]
        rintro (h | h)
        · exact hresolve h
        · exact NetEv.noConfusion h

/-- C2 (counterexample): a concrete cluster whose workspace has an empty
condition list — hence is NOT ready — and a reachable Service: the chat
command (`run`, entered after flag validation succeeds on the default
parameters) resolves the endpoint (performing the Service fetch and DNS
lookup) and starts the session without ever consulting the workspace's
conditions, instead of aborting before resolution as the claim states. -/
theorem c2_counterexample :
    isWorkspaceReady (.obj [("conditions", .arr [])]) = false ∧
    NetEv.serviceFetch ∈
      (chatRun ⟨"my-llama", "default", "", 1, 1024, 1⟩
        ⟨some [("status", .obj [("conditions", .arr [])])],
         some ⟨"10.0.0.1", "ClusterIP", []⟩, fun _ => true, fun _ => none⟩).2 ∧
    NetEv.readinessCheck ∉
      (chatRun ⟨"my-llama", "default", "", 1, 1024, 1⟩
        ⟨some [("status", .obj [("conditions", .arr [])])],
         some ⟨"10.0.0.1", "ClusterIP", []⟩, fun _ => true, fun _ => none⟩).2 ∧
    (ChatOpts.validate ⟨"my-llama", "default", "", 1, 1024, 1⟩) = .ok () ∧
    (chatRun ⟨"my-llama", "default", "", 1, 1024, 1⟩
        ⟨some [("status", .obj [("conditions", .arr [])])],
         some ⟨"10.0.0.1", "ClusterIP", []⟩, fun _ => true, fun _ => none⟩).1 =
      .sessionStarted "http://my-llama.default.svc.cluster.local:80/v1/chat/completions"
        "Unknown" := by
  refine ⟨rfl, by decide, by decide, rfl, by decide⟩

/-- C2 (amended): the readiness gate runs before endpoint resolution only
in the standalone get-endpoint command — there, among the network
operations, the readiness check always precedes the Service fetch, and a
failing readiness check (a not-ready workspace included) aborts the
command with that error before the Service is ever fetched — while the
chat command never consults workspace readiness at all. -/
theorem c2_amended_gate_placement (o : GetEndpointOpts) (co : ChatOpts) (env : ClusterEnv) :
    gateBefore (getEndpointRun o env).2 = true ∧
    (∀ ws, env.workspace = some ws →
       ∀ e, checkWorkspaceReady o.workspaceName ws = .error e →
         (getEndpointRun o env).1 = .error e ∧
         NetEv.serviceFetch ∉ (getEndpointRun o env).2) ∧
    NetEv.readinessCheck ∉ (chatRunE co env).2 := by
  refine ⟨?_, ?_, readinessCheck_not_in_chatRun co env⟩
  · cases hws : env.workspace with
    | none => simp [getEndpointRun, hws, gateBefore]
    | some ws =>
      cases hcr : checkWorkspaceReady o.workspaceName ws with
      | error e => simp [getEndpointRun, hws, hcr, gateBefore]
      | ok u =>
        cases hse :
            getServiceEndpoint o.workspaceName (resolveNamespace o.ns) o.external env.service with
        | error e => simp [getEndpointRun, hws, hcr, hse, gateBefore]
        | ok endpoint => simp [getEndpointRun, hws, hcr, hse, gateBefore]
  · intro ws hws e he
    constructor
    · simp [getEndpointRun, hws, he]
    · simp [getEndpointRun, hws, he]

/-- C2 (witness): at a concrete not-ready workspace (empty condition
list), the get-endpoint command returns the not-ready error and its
network trace contains no Service fetch. -/
theorem c2_amended_witness :
    (getEndpointRun ⟨"my-llama", "default", false, "url"⟩
        ⟨some [("status", .obj [("conditions", .arr [])])],
         some ⟨"10.0.0.1", "ClusterIP", []⟩, fun _ => true, fun _ => none⟩).1 =
      .error (notReadyMsg "my-llama") ∧
    NetEv.serviceFetch ∉
      (getEndpointRun ⟨"my-llama", "default", false, "url"⟩
        ⟨some [("status", .obj [("conditions", .arr [])])],
         some ⟨"10.0.0.1", "ClusterIP", []⟩, fun _ => true, fun _ => none⟩).2 :=
  (c2_amended_gate_placement ⟨"my-llama", "default", false, "url"⟩
      ⟨"my-llama", "default", "", 1, 1024, 1⟩
      ⟨some [("status", .obj [("conditions", .arr [])])],
       some ⟨"10.0.0.1", "ClusterIP", []⟩, fun _ => true, fun _ => none⟩).2.1
    [("status", .obj [("conditions", .arr [])])] rfl (notReadyMsg "my-llama") rfl
